import Mathlib

/-!
A shallow embedding of `modules/src/ics02_client/client_def.rs` of the
`hermes` repository: the polymorphic light-client dispatcher (`AnyClient`),
the polymorphic containers (`AnyHeader`, `AnyClientState`,
`AnyConsensusState`), and the decoding adapter (`TryFromRaw`), together with
proofs of the claims made about them.

The embedding follows the source file.  Types the source imports from other
crates or modules of the repository (heights, identifiers, commitment
primitives, the concrete per-algorithm state/header/algorithm types, the
prost decoders) are not part of the given source; they are modelled from the
spec as opaque value types or as parameters, and are marked as such in their
doc comments.  Machine behaviour such as `todo!()` (an unconditional panic)
is modelled explicitly: a function that can panic returns an `Option`, with
`none` standing for the panic.
-/

namespace Hermes

/-- `tendermint::block::Height`: opaque height value (spec §1: "chain
identifiers, height types ... treated as opaque value types"). -/
abbrev Height := Nat

/-- `ics24_host::identifier::ClientId`: opaque identifier. -/
abbrev ClientId := String

/-- `ics24_host::identifier::ConnectionId`: opaque identifier. -/
abbrev ConnectionId := String

/-- `ics23_commitment::commitment::CommitmentPrefix`: opaque (spec §3). -/
abbrev CommitmentPrefix := Nat

/-- `ics23_commitment::commitment::CommitmentProof`: opaque (spec §3). -/
abbrev CommitmentProof := Nat

/-- `ics23_commitment::commitment::CommitmentRoot`: opaque (spec §3). -/
abbrev CommitmentRoot := Nat

/-- `ics03_connection::connection::ConnectionEnd`: opaque to this layer. -/
abbrev ConnectionEnd := Nat

/-- Raw byte payloads (`Vec<u8>` / `prost` bytes). -/
abbrev Bytes := List Nat

/-- `ics02_client::client_type::ClientType`: the enumerated algorithm tag.
In the test configuration both the Tendermint and the Mock variants exist
(the source gates `Mock` behind `cfg(test)`). -/
inductive ClientType where
  | Tendermint
  | Mock
deriving DecidableEq, Repr

/-- Modelled from the spec: the concrete Tendermint client state
(`ics07_tendermint::client_state::ClientState`, not under `src/`).  Spec §3:
a client state carries its latest trusted height, its frozen flag and a
chain identifier (algorithm-specific trust parameters are elided: no claim
inspects them). -/
structure TendermintClientState where
  chain_id : String
  latest_height : Height
  frozen : Bool
deriving DecidableEq, Repr

/-- Modelled from the spec: the concrete Tendermint client type accessor;
the tag identifying the algorithm (spec §3 ClientType). -/
def TendermintClientState.client_type (_ : TendermintClientState) : ClientType :=
  .Tendermint

/-- Modelled from the spec: the frozen-flag accessor of the concrete state. -/
def TendermintClientState.is_frozen (s : TendermintClientState) : Bool :=
  s.frozen

/-- Modelled from the spec: the test-only mock client state
(`mock_client::state::MockClientState`, not under `src/`). -/
structure MockClientState where
  latest_height : Height
  frozen : Bool
deriving DecidableEq, Repr

/-- Modelled from the spec: the mock client type accessor. -/
def MockClientState.client_type (_ : MockClientState) : ClientType :=
  .Mock

/-- Modelled from the spec: the frozen-flag accessor of the mock state. -/
def MockClientState.is_frozen (s : MockClientState) : Bool :=
  s.frozen

/-- Modelled from the spec: the concrete Tendermint consensus state
(`ics07_tendermint::consensus_state::ConsensusState`, not under `src/`).
Spec §3: a commitment root plus the height it is trusted at. -/
structure TendermintConsensusState where
  height : Height
  root : CommitmentRoot
deriving DecidableEq, Repr

/-- Modelled from the spec: the test-only mock consensus state
(`mock_client::state::MockConsensusState`, not under `src/`). -/
structure MockConsensusState where
  height : Height
deriving DecidableEq, Repr

/-- Modelled from the spec: the concrete Tendermint header
(`ics07_tendermint::header::Header`, not under `src/`).  Spec §3: a header
declares a target height (its proof-carrying evidence is elided: no claim
inspects it). -/
structure TendermintHeader where
  height : Height
deriving DecidableEq, Repr

/-- Modelled from the spec: which `ClientType` produced a Tendermint header. -/
def TendermintHeader.client_type (_ : TendermintHeader) : ClientType :=
  .Tendermint

/-- Modelled from the spec: the test-only mock header
(`mock_client::header::MockHeader`, not under `src/`). -/
structure MockHeader where
  height : Height
deriving DecidableEq, Repr

/-- Modelled from the spec: which `ClientType` produced a mock header. -/
def MockHeader.client_type (_ : MockHeader) : ClientType :=
  .Mock

/-- `ics07_tendermint::client_def::TendermintClient`: the stateless
algorithm-selector token (a unit struct in the source). -/
structure TendermintClient where
deriving DecidableEq, Repr

/-- `mock_client::client_def::MockClient`: the test-only selector token. -/
structure MockClient where
deriving DecidableEq, Repr

/-- The error kinds of `ics02_client::error::Kind` that `client_def.rs`
produces, plus `other` standing for the opaque boxed errors
(`Box<dyn std::error::Error>`) a concrete algorithm or an external decoder
may return.  `context(e)` payloads attached by the source are elided: only
the kind is observable in the claims. -/
inductive ClientError where
  | ProtoDecodingFailure
  | InvalidRawClientState
  | InvalidRawConsensusState
  | UnknownClientStateType (tag : String)
  | UnknownConsensusStateType (tag : String)
  | ClientArgsTypeMismatch (expected : ClientType)
  | other (code : Nat)
deriving DecidableEq, Repr

/-- `AnyHeader` (client_def.rs lines 88–95), test configuration: the `Mock`
variant is compiled in (`cfg(test)`). -/
inductive AnyHeader where
  | Tendermint (h : TendermintHeader)
  | Mock (h : MockHeader)
deriving DecidableEq, Repr

/-- `impl Header for AnyHeader`, `client_type` (lines 98–105): delegates to
the wrapped header's accessor. -/
def AnyHeader.client_type : AnyHeader → ClientType
  | .Tendermint h => h.client_type
  | .Mock h => h.client_type

/-- `impl Header for AnyHeader`, `height` (lines 107–114): delegates to the
wrapped header's accessor (the concrete accessor is the declared target
height, modelled as the `height` field). -/
def AnyHeader.height : AnyHeader → Height
  | .Tendermint h => h.height
  | .Mock h => h.height

/-- `AnyClientState` (lines 117–123), test configuration. -/
inductive AnyClientState where
  | Tendermint (s : TendermintClientState)
  | Mock (s : MockClientState)
deriving DecidableEq, Repr

/-- `AnyConsensusState` (lines 189–195), test configuration. -/
inductive AnyConsensusState where
  | Tendermint (s : TendermintConsensusState)
  | Mock (s : MockConsensusState)
deriving DecidableEq, Repr

/-- `prost_types::Any`: a type-url tag plus raw bytes. -/
structure ProstAny where
  type_url : String
  value : Bytes
deriving DecidableEq, Repr

/-- Modelled from the spec: the external byte decoders and per-algorithm
validity constructors the decoding adapter selects by tag (spec §4.3); the
`prost` decoding (`RawTendermintClientState::decode`,
`RawMockClientState::decode`) and the structural validation
(`TryFrom` impls of the concrete states) are not under `src/`, so they are
parameters.  An `Except Nat _` error payload stands for the opaque error `e`
the source wraps with `.context(e)`; the raw decoded structures are opaque. -/
structure ClientStateCodecs where
  decodeTendermint : Bytes → Except Nat Nat
  validateTendermint : Nat → Except Nat TendermintClientState
  decodeMock : Bytes → Except Nat Nat
  validateMock : Nat → Except Nat MockClientState

/-- `impl TryFromRaw for AnyClientState`, `try_from` (lines 125–154), test
configuration: the `"/ibc.mock.ClientState"` arm is compiled in.  Matches on
`raw.type_url`; a decode failure becomes `ProtoDecodingFailure`, a
validation failure becomes `InvalidRawClientState`, an unknown tag becomes
`UnknownClientStateType(tag)`. -/
def AnyClientState.try_from (c : ClientStateCodecs) (raw : ProstAny) :
    Except ClientError AnyClientState :=
  if raw.type_url = "/ibc.tendermint.ClientState" then
    match c.decodeTendermint raw.value with
    | .error _ => .error .ProtoDecodingFailure
    | .ok r =>
      match c.validateTendermint r with
      | .error _ => .error .InvalidRawClientState
      | .ok client_state => .ok (.Tendermint client_state)
  else if raw.type_url = "/ibc.mock.ClientState" then
    match c.decodeMock raw.value with
    | .error _ => .error .ProtoDecodingFailure
    | .ok r =>
      match c.validateMock r with
      | .error _ => .error .InvalidRawClientState
      | .ok client_state => .ok (.Mock client_state)
  else
    .error (.UnknownClientStateType raw.type_url)

/-- Modelled from the spec: the external decoder and validity constructor for
Tendermint consensus states (`RawTendermintConsensusState::decode` and the
`TryFrom` impl, not under `src/`). -/
structure ConsensusStateCodecs where
  decodeTendermint : Bytes → Except Nat Nat
  validateTendermint : Nat → Except Nat TendermintConsensusState

/-- `impl TryFromRaw for AnyConsensusState`, `try_from` (lines 197–225).
Only the `"/ibc.tendermint.ConsensusState"` arm exists: the mock arm is
commented out in the source (lines 212–221, a `TODO`), so even in the test
configuration every other tag — the mock consensus tag included — falls to
`UnknownConsensusStateType(tag)`. -/
def AnyConsensusState.try_from (c : ConsensusStateCodecs) (raw : ProstAny) :
    Except ClientError AnyConsensusState :=
  if raw.type_url = "/ibc.tendermint.ConsensusState" then
    match c.decodeTendermint raw.value with
    | .error _ => .error .ProtoDecodingFailure
    | .ok r =>
      match c.validateTendermint r with
      | .error _ => .error .InvalidRawConsensusState
      | .ok consensus_state => .ok (.Tendermint consensus_state)
  else
    .error (.UnknownConsensusStateType raw.type_url)

/-- `impl ClientState for AnyClientState`, `chain_id` (lines 157–159): the
source body is `todo!()`, an unconditional panic.  The panic is modelled as
`none`; a returned chain identifier would be `some`. -/
def AnyClientState.chain_id (_ : AnyClientState) : Option String :=
  none

/-- `impl ClientState for AnyClientState`, `client_type` (lines 161–168):
delegates to the wrapped state's accessor. -/
def AnyClientState.client_type : AnyClientState → ClientType
  | .Tendermint s => s.client_type
  | .Mock s => s.client_type

/-- `impl ClientState for AnyClientState`, `latest_height` (lines 170–177):
delegates to the wrapped state's accessor (modelled as the `latest_height`
field of the concrete state). -/
def AnyClientState.latest_height : AnyClientState → Height
  | .Tendermint s => s.latest_height
  | .Mock s => s.latest_height

/-- `impl ClientState for AnyClientState`, `is_frozen` (lines 179–186):
delegates to the wrapped state's accessor. -/
def AnyClientState.is_frozen : AnyClientState → Bool
  | .Tendermint s => s.is_frozen
  | .Mock s => s.is_frozen

/-- `impl ConsensusState for AnyConsensusState`, `client_type` (lines
228–230): the source body is `todo!()`, an unconditional panic, modelled as
`none`. -/
def AnyConsensusState.client_type (_ : AnyConsensusState) : Option ClientType :=
  none

/-- `impl ConsensusState for AnyConsensusState`, `height` (lines 232–234):
`todo!()`, modelled as `none`. -/
def AnyConsensusState.height (_ : AnyConsensusState) : Option Height :=
  none

/-- `impl ConsensusState for AnyConsensusState`, `root` (lines 236–238):
`todo!()`, modelled as `none`. -/
def AnyConsensusState.root (_ : AnyConsensusState) : Option CommitmentRoot :=
  none

/-- `impl ConsensusState for AnyConsensusState`, `validate_basic` (lines
240–242): `todo!()`, modelled as `none` (a completed run would be `some` of
the `Result`). -/
def AnyConsensusState.validate_basic (_ : AnyConsensusState) :
    Option (Except ClientError Unit) :=
  none

/-- `AnyClient` (lines 245–251), test configuration. -/
inductive AnyClient where
  | Tendermint (c : TendermintClient)
  | Mock (c : MockClient)
deriving DecidableEq, Repr

/-- `AnyClient::from_client_type` (lines 254–261). -/
def AnyClient.from_client_type : ClientType → AnyClient
  | .Tendermint => .Tendermint ⟨⟩
  | .Mock => .Mock ⟨⟩

/-- The `crate::downcast!` macro (not under `src/`) applied to the argument
pair of `check_header_and_update_state` with the Tendermint patterns.
Modelled from the spec (§9): a narrowing operation returning an optional
concrete pair only when all supplied polymorphic values share the expected
variant tag. -/
def downcastTendermintPair (client_state : AnyClientState) (header : AnyHeader) :
    Option (TendermintClientState × TendermintHeader) :=
  match client_state, header with
  | .Tendermint s, .Tendermint h => some (s, h)
  | _, _ => none

/-- `downcast!` with the Mock patterns on the argument pair.  Modelled from
the spec (§9), as `downcastTendermintPair`. -/
def downcastMockPair (client_state : AnyClientState) (header : AnyHeader) :
    Option (MockClientState × MockHeader) :=
  match client_state, header with
  | .Mock s, .Mock h => some (s, h)
  | _, _ => none

/-- `downcast!` on a single `AnyClientState` with the Tendermint pattern.
Modelled from the spec (§9). -/
def AnyClientState.downcastTendermint : AnyClientState → Option TendermintClientState
  | .Tendermint s => some s
  | _ => none

/-- `downcast!` on a single `AnyClientState` with the Mock pattern.
Modelled from the spec (§9). -/
def AnyClientState.downcastMock : AnyClientState → Option MockClientState
  | .Mock s => some s
  | _ => none

/-- Modelled from the spec: the concrete Tendermint algorithm's four
operations (`impl ClientDef for TendermintClient` in
`ics07_tendermint::client_def`, not under `src/`).  The dispatcher treats
them as opaque (spec §4.1); every claim about the dispatcher is proved for
all implementations, so they are parameters.  Note that the `ClientDef`
trait itself fixes the `expected_consensus_state` parameter of
`verify_client_consensus_state` and the counterparty-client-state parameter
of `verify_client_full_state` at the polymorphic types `AnyConsensusState` /
`AnyClientState` (client_def.rs lines 60 and 84). -/
structure TendermintClientImpl where
  check_header_and_update_state :
    TendermintClientState → TendermintHeader →
      Except ClientError (TendermintClientState × TendermintConsensusState)
  verify_client_consensus_state :
    TendermintClientState → Height → CommitmentPrefix → CommitmentProof →
      ClientId → Height → AnyConsensusState → Except ClientError Unit
  verify_connection_state :
    TendermintClientState → Height → CommitmentPrefix → CommitmentProof →
      ConnectionId → ConnectionEnd → Except ClientError Unit
  verify_client_full_state :
    TendermintClientState → Height → CommitmentRoot → CommitmentPrefix →
      ClientId → CommitmentProof → AnyClientState → Except ClientError Unit

/-- Modelled from the spec: the test-only mock algorithm's four operations
(`impl ClientDef for MockClient` in `mock_client::client_def`, not under
`src/`), as parameters, like `TendermintClientImpl`. -/
structure MockClientImpl where
  check_header_and_update_state :
    MockClientState → MockHeader →
      Except ClientError (MockClientState × MockConsensusState)
  verify_client_consensus_state :
    MockClientState → Height → CommitmentPrefix → CommitmentProof →
      ClientId → Height → AnyConsensusState → Except ClientError Unit
  verify_connection_state :
    MockClientState → Height → CommitmentPrefix → CommitmentProof →
      ConnectionId → ConnectionEnd → Except ClientError Unit
  verify_client_full_state :
    MockClientState → Height → CommitmentRoot → CommitmentPrefix →
      ClientId → CommitmentProof → AnyClientState → Except ClientError Unit

/-- `AnyClient::check_header_and_update_state` (lines 270–309), test
configuration.  Matches on the dispatcher's own variant, narrows the
`client_state`/`header` pair with `downcast!`, fails with
`ClientArgsTypeMismatch` when the narrowing returns `None`, delegates to the
concrete algorithm (`tm`/`mockc`) and re-wraps a successful result into the
same algorithm's variants. -/
def AnyClient.check_header_and_update_state
    (tm : TendermintClientImpl) (mockc : MockClientImpl) (self : AnyClient)
    (client_state : AnyClientState) (header : AnyHeader) :
    Except ClientError (AnyClientState × AnyConsensusState) :=
  match self with
  | .Tendermint _client =>
    match downcastTendermintPair client_state header with
    | none => .error (.ClientArgsTypeMismatch .Tendermint)
    | some (client_state, header) =>
      match tm.check_header_and_update_state client_state header with
      | .error e => .error e
      | .ok (new_state, new_consensus) =>
        .ok (.Tendermint new_state, .Tendermint new_consensus)
  | .Mock _client =>
    match downcastMockPair client_state header with
    | none => .error (.ClientArgsTypeMismatch .Mock)
    | some (client_state, header) =>
      match mockc.check_header_and_update_state client_state header with
      | .error e => .error e
      | .ok (new_state, new_consensus) =>
        .ok (.Mock new_state, .Mock new_consensus)

/-- `AnyClient::verify_client_consensus_state` (lines 311–357), test
configuration.  Only the first `client_state` argument is narrowed; the
`expected_consensus_state` argument is passed to the concrete algorithm
unchanged, still as an `AnyConsensusState` (the Rust binder named `prefix`
is written `pfx` here). -/
def AnyClient.verify_client_consensus_state
    (tm : TendermintClientImpl) (mockc : MockClientImpl) (self : AnyClient)
    (client_state : AnyClientState) (height : Height) (pfx : CommitmentPrefix)
    (proof : CommitmentProof) (client_id : ClientId) (consensus_height : Height)
    (expected_consensus_state : AnyConsensusState) : Except ClientError Unit :=
  match self with
  | .Tendermint _client =>
    match client_state.downcastTendermint with
    | none => .error (.ClientArgsTypeMismatch .Tendermint)
    | some client_state =>
      tm.verify_client_consensus_state client_state height pfx proof client_id
        consensus_height expected_consensus_state
  | .Mock _client =>
    match client_state.downcastMock with
    | none => .error (.ClientArgsTypeMismatch .Mock)
    | some client_state =>
      mockc.verify_client_consensus_state client_state height pfx proof client_id
        consensus_height expected_consensus_state

/-- `AnyClient::verify_connection_state` (lines 359–398), test
configuration.  Only the `client_state` argument is narrowed. -/
def AnyClient.verify_connection_state
    (tm : TendermintClientImpl) (mockc : MockClientImpl) (self : AnyClient)
    (client_state : AnyClientState) (height : Height) (pfx : CommitmentPrefix)
    (proof : CommitmentProof) (connection_id : ConnectionId)
    (expected_connection_end : ConnectionEnd) : Except ClientError Unit :=
  match self with
  | .Tendermint _client =>
    match client_state.downcastTendermint with
    | none => .error (.ClientArgsTypeMismatch .Tendermint)
    | some client_state =>
      tm.verify_connection_state client_state height pfx proof connection_id
        expected_connection_end
  | .Mock _client =>
    match client_state.downcastMock with
    | none => .error (.ClientArgsTypeMismatch .Mock)
    | some client_state =>
      mockc.verify_connection_state client_state height pfx proof connection_id
        expected_connection_end

/-- `AnyClient::verify_client_full_state` (lines 400–446), test
configuration.  Only the first `client_state` argument is narrowed; the
`client_state_on_counterparty` argument is passed to the concrete algorithm
unchanged, still as an `AnyClientState`. -/
def AnyClient.verify_client_full_state
    (tm : TendermintClientImpl) (mockc : MockClientImpl) (self : AnyClient)
    (client_state : AnyClientState) (height : Height) (root : CommitmentRoot)
    (pfx : CommitmentPrefix) (client_id : ClientId) (proof : CommitmentProof)
    (client_state_on_counterparty : AnyClientState) : Except ClientError Unit :=
  match self with
  | .Tendermint _client =>
    match client_state.downcastTendermint with
    | none => .error (.ClientArgsTypeMismatch .Tendermint)
    | some client_state =>
      tm.verify_client_full_state client_state height root pfx client_id proof
        client_state_on_counterparty
  | .Mock _client =>
    match client_state.downcastMock with
    | none => .error (.ClientArgsTypeMismatch .Mock)
    | some client_state =>
      mockc.verify_client_full_state client_state height root pfx client_id proof
        client_state_on_counterparty

/-! ## The non-test build configuration

Without `cfg(test)` the `Mock` variants of `AnyHeader`, `AnyClientState`,
`AnyConsensusState` and `AnyClient` are not compiled: each enum has only its
`Tendermint` variant, and each dispatcher operation has only its Tendermint
arm.  That configuration is embedded separately as the `Prod*` types below,
with the same line-for-line structure minus the `#[cfg(test)]` items. -/

/-- `AnyHeader` (lines 88–95) without `cfg(test)`: only `Tendermint`. -/
inductive ProdAnyHeader where
  | Tendermint (h : TendermintHeader)
deriving DecidableEq, Repr

/-- `AnyClientState` (lines 117–123) without `cfg(test)`. -/
inductive ProdAnyClientState where
  | Tendermint (s : TendermintClientState)
deriving DecidableEq, Repr

/-- `AnyConsensusState` (lines 189–195) without `cfg(test)`. -/
inductive ProdAnyConsensusState where
  | Tendermint (s : TendermintConsensusState)
deriving DecidableEq, Repr

/-- `AnyClient` (lines 245–251) without `cfg(test)`. -/
inductive ProdAnyClient where
  | Tendermint (c : TendermintClient)
deriving DecidableEq, Repr

/-- The wrapped concrete state of a non-test `AnyClientState` (total: the
enum has a single variant in that configuration). -/
def ProdAnyClientState.tendermint : ProdAnyClientState → TendermintClientState
  | .Tendermint s => s

/-- The wrapped concrete header of a non-test `AnyHeader`. -/
def ProdAnyHeader.tendermint : ProdAnyHeader → TendermintHeader
  | .Tendermint h => h

/-- `downcast!` on the argument pair in the non-test configuration: the
match is over single-variant enums, so the `None` arm exists syntactically
but can never be reached. -/
def prodDowncastTendermintPair (client_state : ProdAnyClientState)
    (header : ProdAnyHeader) : Option (TendermintClientState × TendermintHeader) :=
  match client_state, header with
  | .Tendermint s, .Tendermint h => some (s, h)

/-- `downcast!` on a single non-test `AnyClientState`. -/
def ProdAnyClientState.downcastTendermint :
    ProdAnyClientState → Option TendermintClientState
  | .Tendermint s => some s

/-- Modelled from the spec: the concrete Tendermint algorithm in the
non-test configuration; like `TendermintClientImpl` but the trait's
polymorphic parameter types are the non-test enums. -/
structure ProdTendermintClientImpl where
  check_header_and_update_state :
    TendermintClientState → TendermintHeader →
      Except ClientError (TendermintClientState × TendermintConsensusState)
  verify_client_consensus_state :
    TendermintClientState → Height → CommitmentPrefix → CommitmentProof →
      ClientId → Height → ProdAnyConsensusState → Except ClientError Unit
  verify_connection_state :
    TendermintClientState → Height → CommitmentPrefix → CommitmentProof →
      ConnectionId → ConnectionEnd → Except ClientError Unit
  verify_client_full_state :
    TendermintClientState → Height → CommitmentRoot → CommitmentPrefix →
      ClientId → CommitmentProof → ProdAnyClientState → Except ClientError Unit

/-- `AnyClient::check_header_and_update_state` (lines 270–309) without
`cfg(test)`: only the Tendermint arm is compiled. -/
def ProdAnyClient.check_header_and_update_state
    (tm : ProdTendermintClientImpl) (self : ProdAnyClient)
    (client_state : ProdAnyClientState) (header : ProdAnyHeader) :
    Except ClientError (ProdAnyClientState × ProdAnyConsensusState) :=
  match self with
  | .Tendermint _client =>
    match prodDowncastTendermintPair client_state header with
    | none => .error (.ClientArgsTypeMismatch .Tendermint)
    | some (client_state, header) =>
      match tm.check_header_and_update_state client_state header with
      | .error e => .error e
      | .ok (new_state, new_consensus) =>
        .ok (.Tendermint new_state, .Tendermint new_consensus)

/-- `AnyClient::verify_client_consensus_state` (lines 311–357) without
`cfg(test)`. -/
def ProdAnyClient.verify_client_consensus_state
    (tm : ProdTendermintClientImpl) (self : ProdAnyClient)
    (client_state : ProdAnyClientState) (height : Height) (pfx : CommitmentPrefix)
    (proof : CommitmentProof) (client_id : ClientId) (consensus_height : Height)
    (expected_consensus_state : ProdAnyConsensusState) : Except ClientError Unit :=
  match self with
  | .Tendermint _client =>
    match client_state.downcastTendermint with
    | none => .error (.ClientArgsTypeMismatch .Tendermint)
    | some client_state =>
      tm.verify_client_consensus_state client_state height pfx proof client_id
        consensus_height expected_consensus_state

/-- `AnyClient::verify_connection_state` (lines 359–398) without
`cfg(test)`. -/
def ProdAnyClient.verify_connection_state
    (tm : ProdTendermintClientImpl) (self : ProdAnyClient)
    (client_state : ProdAnyClientState) (height : Height) (pfx : CommitmentPrefix)
    (proof : CommitmentProof) (connection_id : ConnectionId)
    (expected_connection_end : ConnectionEnd) : Except ClientError Unit :=
  match self with
  | .Tendermint _client =>
    match client_state.downcastTendermint with
    | none => .error (.ClientArgsTypeMismatch .Tendermint)
    | some client_state =>
      tm.verify_connection_state client_state height pfx proof connection_id
        expected_connection_end

/-- `AnyClient::verify_client_full_state` (lines 400–446) without
`cfg(test)`. -/
def ProdAnyClient.verify_client_full_state
    (tm : ProdTendermintClientImpl) (self : ProdAnyClient)
    (client_state : ProdAnyClientState) (height : Height) (root : CommitmentRoot)
    (pfx : CommitmentPrefix) (client_id : ClientId) (proof : CommitmentProof)
    (client_state_on_counterparty : ProdAnyClientState) : Except ClientError Unit :=
  match self with
  | .Tendermint _client =>
    match client_state.downcastTendermint with
    | none => .error (.ClientArgsTypeMismatch .Tendermint)
    | some client_state =>
      tm.verify_client_full_state client_state height root pfx client_id proof
        client_state_on_counterparty

/-! ## Sample values

Concrete inputs used by the closed theorems (counterexamples and witnesses)
below. -/

/-- A sample concrete Tendermint client state. -/
def tmState0 : TendermintClientState := ⟨"chain-a", 100, false⟩

/-- A sample concrete Tendermint header targeting height 101. -/
def tmHeader0 : TendermintHeader := ⟨101⟩

/-- A sample concrete Tendermint consensus state. -/
def tmConsensus0 : TendermintConsensusState := ⟨101, 7⟩

/-- A sample mock client state. -/
def mockState0 : MockClientState := ⟨10, false⟩

/-- A sample mock header. -/
def mockHeader0 : MockHeader := ⟨11⟩

/-- A sample mock consensus state. -/
def mockConsensus0 : MockConsensusState := ⟨11⟩

/-- A sample Tendermint implementation: the update advances the client to
the header's height, and the three verifications succeed. -/
def tmImplOk : TendermintClientImpl :=
  { check_header_and_update_state := fun s h =>
      .ok ({ s with latest_height := h.height }, ⟨h.height, 7⟩)
    verify_client_consensus_state := fun _ _ _ _ _ _ _ => .ok ()
    verify_connection_state := fun _ _ _ _ _ _ => .ok ()
    verify_client_full_state := fun _ _ _ _ _ _ _ => .ok () }

/-- A sample mock implementation, all operations succeeding. -/
def mockImplOk : MockClientImpl :=
  { check_header_and_update_state := fun s h =>
      .ok ({ s with latest_height := h.height }, ⟨h.height⟩)
    verify_client_consensus_state := fun _ _ _ _ _ _ _ => .ok ()
    verify_connection_state := fun _ _ _ _ _ _ => .ok ()
    verify_client_full_state := fun _ _ _ _ _ _ _ => .ok () }

/-- Sample client-state codecs whose decoders and validators always
succeed. -/
def codecsOk : ClientStateCodecs :=
  { decodeTendermint := fun v => .ok v.length
    validateTendermint := fun r => .ok ⟨"chain-a", r, false⟩
    decodeMock := fun v => .ok v.length
    validateMock := fun r => .ok ⟨r, false⟩ }

/-- Sample consensus-state codecs whose decoder and validator always
succeed. -/
def consensusCodecsOk : ConsensusStateCodecs :=
  { decodeTendermint := fun v => .ok v.length
    validateTendermint := fun r => .ok ⟨r, 7⟩ }

/-! ## Theorems -/

/-- C2: for every dispatcher bound to algorithm `A`, and for every concrete
implementation of both algorithms (universality over `tm`/`mockc` is what
rules out any call into a concrete algorithm), `check_header_and_update_state`
with a `client_state` or `header` of the other algorithm, and each of the
three verify operations with a first `client_state` argument of the other
algorithm, return `ClientArgsTypeMismatch(A)`; no partial processing of the
matching arguments happens, since the result is this error whatever the
other argument is. -/
theorem mismatched_narrowed_args_fail
    (tm : TendermintClientImpl) (mockc : MockClientImpl)
    (c : TendermintClient) (m : MockClient)
    (ts : TendermintClientState) (ms : MockClientState)
    (th : TendermintHeader) (mh : MockHeader)
    (anyState : AnyClientState) (anyHeader : AnyHeader)
    (height ch : Height) (pfx : CommitmentPrefix) (proof : CommitmentProof)
    (cid : ClientId) (connid : ConnectionId) (cend : ConnectionEnd)
    (root : CommitmentRoot) (ecs : AnyConsensusState) (cps : AnyClientState) :
    (AnyClient.check_header_and_update_state tm mockc (.Tendermint c) (.Mock ms) anyHeader
        = .error (.ClientArgsTypeMismatch .Tendermint))
  ∧ (AnyClient.check_header_and_update_state tm mockc (.Tendermint c) anyState (.Mock mh)
        = .error (.ClientArgsTypeMismatch .Tendermint))
  ∧ (AnyClient.check_header_and_update_state tm mockc (.Mock m) (.Tendermint ts) anyHeader
        = .error (.ClientArgsTypeMismatch .Mock))
  ∧ (AnyClient.check_header_and_update_state tm mockc (.Mock m) anyState (.Tendermint th)
        = .error (.ClientArgsTypeMismatch .Mock))
  ∧ (AnyClient.verify_client_consensus_state tm mockc (.Tendermint c) (.Mock ms)
        height pfx proof cid ch ecs = .error (.ClientArgsTypeMismatch .Tendermint))
  ∧ (AnyClient.verify_client_consensus_state tm mockc (.Mock m) (.Tendermint ts)
        height pfx proof cid ch ecs = .error (.ClientArgsTypeMismatch .Mock))
  ∧ (AnyClient.verify_connection_state tm mockc (.Tendermint c) (.Mock ms)
        height pfx proof connid cend = .error (.ClientArgsTypeMismatch .Tendermint))
  ∧ (AnyClient.verify_connection_state tm mockc (.Mock m) (.Tendermint ts)
        height pfx proof connid cend = .error (.ClientArgsTypeMismatch .Mock))
  ∧ (AnyClient.verify_client_full_state tm mockc (.Tendermint c) (.Mock ms)
        height root pfx cid proof cps = .error (.ClientArgsTypeMismatch .Tendermint))
  ∧ (AnyClient.verify_client_full_state tm mockc (.Mock m) (.Tendermint ts)
        height root pfx cid proof cps = .error (.ClientArgsTypeMismatch .Mock)) := by
  refine ⟨?_, ?_, ?_, ?_, rfl, rfl, rfl, rfl, rfl, rfl⟩ <;>
    cases anyState <;> cases anyHeader <;> rfl

/-- C1 counterexample: a Tendermint-bound dispatcher, given a matching
`client_state` but a Mock `expected_consensus_state`
(resp. `client_state_on_counterparty`), does not fail with
`ClientArgsTypeMismatch(Tendermint)`: with concrete implementations whose
verifications succeed, both operations return `Ok(())`, so the mismatched
polymorphic argument was handed to the concrete algorithm, not rejected. -/
theorem passthrough_args_counterexample :
    AnyClient.verify_client_consensus_state tmImplOk mockImplOk
        (.Tendermint ⟨⟩) (.Tendermint tmState0) 100 0 0 "07-tendermint-0" 99
        (.Mock mockConsensus0)
      ≠ .error (.ClientArgsTypeMismatch .Tendermint)
  ∧ AnyClient.verify_client_full_state tmImplOk mockImplOk
        (.Tendermint ⟨⟩) (.Tendermint tmState0) 100 0 0 "07-tendermint-0" 0
        (.Mock mockState0)
      ≠ .error (.ClientArgsTypeMismatch .Tendermint) :=
  ⟨(fun h => nomatch h), (fun h => nomatch h)⟩

/-- C1 (amended): the `expected_consensus_state` argument of
`verify_client_consensus_state` and the `client_state_on_counterparty`
argument of `verify_client_full_state` are never narrowed: whenever the
first `client_state` argument matches the dispatcher's algorithm, the
operation equals the concrete algorithm's call with the polymorphic
argument forwarded unchanged — whatever variant it carries. -/
theorem passthrough_args_forwarded_unnarrowed
    (tm : TendermintClientImpl) (mockc : MockClientImpl)
    (c : TendermintClient) (m : MockClient)
    (ts : TendermintClientState) (ms : MockClientState)
    (height ch : Height) (pfx : CommitmentPrefix) (proof : CommitmentProof)
    (cid : ClientId) (root : CommitmentRoot)
    (ecs : AnyConsensusState) (cps : AnyClientState) :
    (AnyClient.verify_client_consensus_state tm mockc (.Tendermint c) (.Tendermint ts)
        height pfx proof cid ch ecs
      = tm.verify_client_consensus_state ts height pfx proof cid ch ecs)
  ∧ (AnyClient.verify_client_consensus_state tm mockc (.Mock m) (.Mock ms)
        height pfx proof cid ch ecs
      = mockc.verify_client_consensus_state ms height pfx proof cid ch ecs)
  ∧ (AnyClient.verify_client_full_state tm mockc (.Tendermint c) (.Tendermint ts)
        height root pfx cid proof cps
      = tm.verify_client_full_state ts height root pfx cid proof cps)
  ∧ (AnyClient.verify_client_full_state tm mockc (.Mock m) (.Mock ms)
        height root pfx cid proof cps
      = mockc.verify_client_full_state ms height root pfx cid proof cps) :=
  ⟨rfl, rfl, rfl, rfl⟩

/-- C3: whenever `check_header_and_update_state` succeeds, the dispatcher
was bound to some algorithm `A`, both inputs were `A`'s variants, and the
returned pair is `A`'s `AnyClientState` and `AnyConsensusState` variants
wrapping exactly the new client state and new consensus state the concrete
algorithm produced on the narrowed inputs. -/
theorem check_header_success_rewraps
    (tm : TendermintClientImpl) (mockc : MockClientImpl) (self : AnyClient)
    (client_state : AnyClientState) (header : AnyHeader)
    (out : AnyClientState × AnyConsensusState)
    (h : AnyClient.check_header_and_update_state tm mockc self client_state header
          = .ok out) :
    (∃ c ts th ns nc, self = .Tendermint c ∧ client_state = .Tendermint ts
        ∧ header = .Tendermint th
        ∧ tm.check_header_and_update_state ts th = .ok (ns, nc)
        ∧ out = (.Tendermint ns, .Tendermint nc))
  ∨ (∃ m ms mh ns nc, self = .Mock m ∧ client_state = .Mock ms
        ∧ header = .Mock mh
        ∧ mockc.check_header_and_update_state ms mh = .ok (ns, nc)
        ∧ out = (.Mock ns, .Mock nc)) := by
  cases self with
  | Tendermint c =>
    left
    cases client_state with
    | Tendermint ts =>
      cases header with
      | Tendermint th =>
        revert h
        show (match tm.check_header_and_update_state ts th with
          | Except.error e => Except.error e
          | Except.ok (ns, nc) =>
            Except.ok (AnyClientState.Tendermint ns, AnyConsensusState.Tendermint nc))
          = Except.ok out → _
        cases hc : tm.check_header_and_update_state ts th with
        | error e => intro h; exact absurd h (by simp)
        | ok p =>
          intro h
          exact ⟨c, ts, th, p.1, p.2, rfl, rfl, rfl, hc, by
            simpa using h.symm⟩
      | Mock mh => exact absurd h (by simp [AnyClient.check_header_and_update_state,
          downcastTendermintPair])
    | Mock ms =>
      cases header <;> exact absurd h (by simp [AnyClient.check_header_and_update_state,
        downcastTendermintPair])
  | Mock m =>
    right
    cases client_state with
    | Mock ms =>
      cases header with
      | Mock mh =>
        revert h
        show (match mockc.check_header_and_update_state ms mh with
          | Except.error e => Except.error e
          | Except.ok (ns, nc) =>
            Except.ok (AnyClientState.Mock ns, AnyConsensusState.Mock nc))
          = Except.ok out → _
        cases hc : mockc.check_header_and_update_state ms mh with
        | error e => intro h; exact absurd h (by simp)
        | ok p =>
          intro h
          exact ⟨m, ms, mh, p.1, p.2, rfl, rfl, rfl, hc, by
            simpa using h.symm⟩
      | Tendermint th => exact absurd h (by simp [AnyClient.check_header_and_update_state,
          downcastMockPair])
    | Tendermint ts =>
      cases header <;> exact absurd h (by simp [AnyClient.check_header_and_update_state,
        downcastMockPair])

/-- C3 witness: the theorem applied at a Tendermint-bound dispatcher, the
sample client state trusted at height 100 and the sample header targeting
height 101, with the sample implementation: the successful output is the
Tendermint re-wrapping of the concrete result. -/
theorem check_header_success_rewraps_witness :
    (∃ c ts th ns nc, (AnyClient.Tendermint ⟨⟩) = AnyClient.Tendermint c
        ∧ AnyClientState.Tendermint tmState0 = .Tendermint ts
        ∧ AnyHeader.Tendermint tmHeader0 = .Tendermint th
        ∧ tmImplOk.check_header_and_update_state ts th = .ok (ns, nc)
        ∧ ((AnyClientState.Tendermint ⟨"chain-a", 101, false⟩,
            AnyConsensusState.Tendermint ⟨101, 7⟩)
            : AnyClientState × AnyConsensusState)
          = (.Tendermint ns, .Tendermint nc))
  ∨ (∃ m ms mh ns nc, (AnyClient.Tendermint ⟨⟩) = AnyClient.Mock m
        ∧ AnyClientState.Tendermint tmState0 = .Mock ms
        ∧ AnyHeader.Tendermint tmHeader0 = .Mock mh
        ∧ mockImplOk.check_header_and_update_state ms mh = .ok (ns, nc)
        ∧ ((AnyClientState.Tendermint ⟨"chain-a", 101, false⟩,
            AnyConsensusState.Tendermint ⟨101, 7⟩)
            : AnyClientState × AnyConsensusState)
          = (.Mock ns, .Mock nc)) :=
  check_header_success_rewraps tmImplOk mockImplOk (AnyClient.Tendermint ⟨⟩)
    (AnyClientState.Tendermint tmState0) (AnyHeader.Tendermint tmHeader0)
    (AnyClientState.Tendermint ⟨"chain-a", 101, false⟩,
      AnyConsensusState.Tendermint ⟨101, 7⟩) rfl

/-- C6: in the test configuration the decoding adapter accepts the mock
client-state tag (`"/ibc.mock.ClientState"` with bytes that decode and
validate yields the `Mock` variant), but the mock consensus-state tag is
not registered — that arm of the source is commented out — so decoding an
`AnyConsensusState` payload tagged `"/ibc.mock.ConsensusState"` fails with
`UnknownConsensusStateType`, contrary to the claim. -/
theorem mock_consensus_tag_unrecognized :
    AnyClientState.try_from codecsOk ⟨"/ibc.mock.ClientState", [1, 2]⟩
      = .ok (.Mock ⟨2, false⟩)
  ∧ AnyConsensusState.try_from consensusCodecsOk
      ⟨"/ibc.mock.ConsensusState", [1, 2]⟩
      = .error (.UnknownConsensusStateType "/ibc.mock.ConsensusState") :=
  ⟨rfl, rfl⟩

/-- C7: `AnyClientState::chain_id` is not a pass-through delegation: its
body is the `todo!()` stub, which panics unconditionally (modelled as
`none`) on every variant, contrary to the claim that it is total. -/
theorem chain_id_stub_panics :
    AnyClientState.chain_id (.Tendermint tmState0) = none
  ∧ AnyClientState.chain_id (.Mock mockState0) = none :=
  ⟨rfl, rfl⟩

/-- C8: the four `ConsensusState` accessors of `AnyConsensusState`
(`client_type`, `height`, `root`, `validate_basic`) are all `todo!()`
stubs: each panics unconditionally (modelled as `none`) instead of
returning the wrapped state's data, contrary to the claim that they are
total. -/
theorem consensus_accessors_stub_panic :
    AnyConsensusState.client_type (.Tendermint tmConsensus0) = none
  ∧ AnyConsensusState.height (.Tendermint tmConsensus0) = none
  ∧ AnyConsensusState.root (.Tendermint tmConsensus0) = none
  ∧ AnyConsensusState.validate_basic (.Tendermint tmConsensus0) = none
  ∧ AnyConsensusState.client_type (.Mock mockConsensus0) = none
  ∧ AnyConsensusState.height (.Mock mockConsensus0) = none
  ∧ AnyConsensusState.root (.Mock mockConsensus0) = none
  ∧ AnyConsensusState.validate_basic (.Mock mockConsensus0) = none :=
  ⟨rfl, rfl, rfl, rfl, rfl, rfl, rfl, rfl⟩

/-- C9: `AnyHeader::client_type` and `AnyHeader::height` return exactly the
wrapped concrete header's client type and declared target height, and
`AnyClientState::client_type`, `latest_height` and `is_frozen` return
exactly the wrapped concrete client state's client type, latest trusted
height and frozen flag, on both variants. -/
theorem header_and_client_state_accessors_delegate
    (th : TendermintHeader) (mh : MockHeader)
    (ts : TendermintClientState) (ms : MockClientState) :
    (AnyHeader.Tendermint th).client_type = th.client_type
  ∧ (AnyHeader.Mock mh).client_type = mh.client_type
  ∧ (AnyHeader.Tendermint th).height = th.height
  ∧ (AnyHeader.Mock mh).height = mh.height
  ∧ (AnyClientState.Tendermint ts).client_type = ts.client_type
  ∧ (AnyClientState.Mock ms).client_type = ms.client_type
  ∧ (AnyClientState.Tendermint ts).latest_height = ts.latest_height
  ∧ (AnyClientState.Mock ms).latest_height = ms.latest_height
  ∧ (AnyClientState.Tendermint ts).is_frozen = ts.is_frozen
  ∧ (AnyClientState.Mock ms).is_frozen = ms.is_frozen :=
  ⟨rfl, rfl, rfl, rfl, rfl, rfl, rfl, rfl, rfl, rfl⟩

/-- C4: the decoding adapter's failure taxonomy, for every choice of
external decoders/validators.  A registered tag whose bytes fail byte
decoding yields `ProtoDecodingFailure`; bytes that decode but fail the
algorithm's structural validation yield `InvalidRawClientState`
(resp. `InvalidRawConsensusState`); an unregistered tag yields
`UnknownClientStateType(tag)` (resp. `UnknownConsensusStateType(tag)`); and
every error either adapter produces is one of those kinds. -/
theorem try_from_error_taxonomy :
    (∀ (c : ClientStateCodecs) (v : Bytes) (e : Nat),
      c.decodeTendermint v = .error e →
      AnyClientState.try_from c ⟨"/ibc.tendermint.ClientState", v⟩
        = .error .ProtoDecodingFailure)
  ∧ (∀ (c : ClientStateCodecs) (v : Bytes) (e : Nat),
      c.decodeMock v = .error e →
      AnyClientState.try_from c ⟨"/ibc.mock.ClientState", v⟩
        = .error .ProtoDecodingFailure)
  ∧ (∀ (c : ClientStateCodecs) (v : Bytes) (r e : Nat),
      c.decodeTendermint v = .ok r → c.validateTendermint r = .error e →
      AnyClientState.try_from c ⟨"/ibc.tendermint.ClientState", v⟩
        = .error .InvalidRawClientState)
  ∧ (∀ (c : ClientStateCodecs) (v : Bytes) (r e : Nat),
      c.decodeMock v = .ok r → c.validateMock r = .error e →
      AnyClientState.try_from c ⟨"/ibc.mock.ClientState", v⟩
        = .error .InvalidRawClientState)
  ∧ (∀ (c : ClientStateCodecs) (raw : ProstAny),
      raw.type_url ≠ "/ibc.tendermint.ClientState" →
      raw.type_url ≠ "/ibc.mock.ClientState" →
      AnyClientState.try_from c raw
        = .error (.UnknownClientStateType raw.type_url))
  ∧ (∀ (c : ClientStateCodecs) (raw : ProstAny) (k : ClientError),
      AnyClientState.try_from c raw = .error k →
      k = .ProtoDecodingFailure ∨ k = .InvalidRawClientState
        ∨ k = .UnknownClientStateType raw.type_url)
  ∧ (∀ (c : ConsensusStateCodecs) (v : Bytes) (e : Nat),
      c.decodeTendermint v = .error e →
      AnyConsensusState.try_from c ⟨"/ibc.tendermint.ConsensusState", v⟩
        = .error .ProtoDecodingFailure)
  ∧ (∀ (c : ConsensusStateCodecs) (v : Bytes) (r e : Nat),
      c.decodeTendermint v = .ok r → c.validateTendermint r = .error e →
      AnyConsensusState.try_from c ⟨"/ibc.tendermint.ConsensusState", v⟩
        = .error .InvalidRawConsensusState)
  ∧ (∀ (c : ConsensusStateCodecs) (raw : ProstAny),
      raw.type_url ≠ "/ibc.tendermint.ConsensusState" →
      AnyConsensusState.try_from c raw
        = .error (.UnknownConsensusStateType raw.type_url))
  ∧ (∀ (c : ConsensusStateCodecs) (raw : ProstAny) (k : ClientError),
      AnyConsensusState.try_from c raw = .error k →
      k = .ProtoDecodingFailure ∨ k = .InvalidRawConsensusState
        ∨ k = .UnknownConsensusStateType raw.type_url) := by
  refine ⟨?_, ?_, ?_, ?_, ?_, ?_, ?_, ?_, ?_, ?_⟩
  · intro c v e hd; simp [AnyClientState.try_from, hd]
  · intro c v e hd; simp [AnyClientState.try_from, hd]
  · intro c v r e hd hv; simp [AnyClientState.try_from, hd, hv]
  · intro c v r e hd hv; simp [AnyClientState.try_from, hd, hv]
  · intro c raw h1 h2; simp [AnyClientState.try_from, h1, h2]
  · intro c raw k h
    by_cases h1 : raw.type_url = "/ibc.tendermint.ClientState"
    · rcases hd : c.decodeTendermint raw.value with e | r
      · simp [AnyClientState.try_from, h1, hd] at h
        exact Or.inl h.symm
      · rcases hv : c.validateTendermint r with e | s
        · simp [AnyClientState.try_from, h1, hd, hv] at h
          exact Or.inr (Or.inl h.symm)
        · simp [AnyClientState.try_from, h1, hd, hv] at h
    · by_cases h2 : raw.type_url = "/ibc.mock.ClientState"
      · rcases hd : c.decodeMock raw.value with e | r
        · simp [AnyClientState.try_from, h1, h2, hd] at h
          exact Or.inl h.symm
        · rcases hv : c.validateMock r with e | s
          · simp [AnyClientState.try_from, h1, h2, hd, hv] at h
            exact Or.inr (Or.inl h.symm)
          · simp [AnyClientState.try_from, h1, h2, hd, hv] at h
      · simp [AnyClientState.try_from, h1, h2] at h
        exact Or.inr (Or.inr h.symm)
  · intro c v e hd; simp [AnyConsensusState.try_from, hd]
  · intro c v r e hd hv; simp [AnyConsensusState.try_from, hd, hv]
  · intro c raw h1; simp [AnyConsensusState.try_from, h1]
  · intro c raw k h
    by_cases h1 : raw.type_url = "/ibc.tendermint.ConsensusState"
    · rcases hd : c.decodeTendermint raw.value with e | r
      · simp [AnyConsensusState.try_from, h1, hd] at h
        exact Or.inl h.symm
      · rcases hv : c.validateTendermint r with e | s
        · simp [AnyConsensusState.try_from, h1, hd, hv] at h
          exact Or.inr (Or.inl h.symm)
        · simp [AnyConsensusState.try_from, h1, hd, hv] at h
    · simp [AnyConsensusState.try_from, h1] at h
      exact Or.inr (Or.inr h.symm)

/-- C5: for each registered algorithm, decoding a client-state payload
carrying that algorithm's tag with bytes that decode and validate returns
`Ok` of the container in that algorithm's variant, whose `client_type()` is
that algorithm's tag; a payload with an unregistered tag always fails with
`UnknownClientStateType`. -/
theorem try_from_registered_tag_client_type :
    (∀ (c : ClientStateCodecs) (v : Bytes) (r : Nat) (s : TendermintClientState),
      c.decodeTendermint v = .ok r → c.validateTendermint r = .ok s →
      AnyClientState.try_from c ⟨"/ibc.tendermint.ClientState", v⟩
          = .ok (.Tendermint s)
        ∧ (AnyClientState.Tendermint s).client_type = .Tendermint)
  ∧ (∀ (c : ClientStateCodecs) (v : Bytes) (r : Nat) (s : MockClientState),
      c.decodeMock v = .ok r → c.validateMock r = .ok s →
      AnyClientState.try_from c ⟨"/ibc.mock.ClientState", v⟩ = .ok (.Mock s)
        ∧ (AnyClientState.Mock s).client_type = .Mock)
  ∧ (∀ (c : ClientStateCodecs) (raw : ProstAny),
      raw.type_url ≠ "/ibc.tendermint.ClientState" →
      raw.type_url ≠ "/ibc.mock.ClientState" →
      AnyClientState.try_from c raw
        = .error (.UnknownClientStateType raw.type_url)) := by
  refine ⟨?_, ?_, ?_⟩
  · intro c v r s hd hv
    exact ⟨by simp [AnyClientState.try_from, hd, hv], rfl⟩
  · intro c v r s hd hv
    exact ⟨by simp [AnyClientState.try_from, hd, hv], rfl⟩
  · intro c raw h1 h2; simp [AnyClientState.try_from, h1, h2]

/-- C10: in the non-test configuration every polymorphic container value is
the Tendermint variant, every narrowing the four dispatcher operations
perform succeeds, and each operation is exactly the delegation to the
concrete algorithm on the wrapped values — the `ClientArgsTypeMismatch`
branch is never taken. -/
theorem prod_config_mismatch_unreachable
    (tm : ProdTendermintClientImpl) (self : ProdAnyClient)
    (client_state : ProdAnyClientState) (header : ProdAnyHeader)
    (height ch : Height) (pfx : CommitmentPrefix) (proof : CommitmentProof)
    (cid : ClientId) (connid : ConnectionId) (cend : ConnectionEnd)
    (root : CommitmentRoot) (ecs : ProdAnyConsensusState)
    (cps : ProdAnyClientState) :
    (∃ s, client_state = .Tendermint s)
  ∧ (∃ h, header = .Tendermint h)
  ∧ (∃ c, self = .Tendermint c)
  ∧ client_state.downcastTendermint = some client_state.tendermint
  ∧ prodDowncastTendermintPair client_state header
      = some (client_state.tendermint, header.tendermint)
  ∧ (ProdAnyClient.check_header_and_update_state tm self client_state header
      = match tm.check_header_and_update_state client_state.tendermint
              header.tendermint with
        | Except.error e => Except.error e
        | Except.ok (ns, nc) =>
          Except.ok (ProdAnyClientState.Tendermint ns,
            ProdAnyConsensusState.Tendermint nc))
  ∧ (ProdAnyClient.verify_client_consensus_state tm self client_state height
        pfx proof cid ch ecs
      = tm.verify_client_consensus_state client_state.tendermint height pfx
          proof cid ch ecs)
  ∧ (ProdAnyClient.verify_connection_state tm self client_state height pfx
        proof connid cend
      = tm.verify_connection_state client_state.tendermint height pfx proof
          connid cend)
  ∧ (ProdAnyClient.verify_client_full_state tm self client_state height root
        pfx cid proof cps
      = tm.verify_client_full_state client_state.tendermint height root pfx
          cid proof cps) := by
  cases self with
  | Tendermint c =>
    cases client_state with
    | Tendermint s =>
      cases header with
      | Tendermint hd =>
        exact ⟨⟨s, rfl⟩, ⟨hd, rfl⟩, ⟨c, rfl⟩, rfl, rfl, rfl, rfl, rfl, rfl⟩

end Hermes






